import Mathlib

/-!
Shallow embedding of the caching subsystem of the PE-Valuation-Calculator
repository (src/cache_manager.py, class CacheManager), together with
theorems checking the natural-language specification against it.

Modelling conventions:
* Instants are natural numbers counting minutes on a single linear time
  scale.  For the trading-calendar functions the scale is read as
  US/Eastern local time with its epoch at a Monday 00:00, so a date is
  the day index `t / 1440`, `weekday = day % 7` with `0 = Monday` and
  `5, 6 = Saturday, Sunday` (matching Python `date.weekday()`), and the
  16:00 close clock time is minute `960` of a day.  The UTC to
  US/Eastern conversion performed by `_is_trading_day_expired` is
  order-preserving, so comparisons between the converted instants are
  comparisons on this scale.
* `timedelta` values become a number of minutes (`timedelta(weeks=1)`
  is `10080`); the strict comparison `datetime.now() - created_at >
  expiry_rule` becomes a strict comparison of (possibly negative)
  integer differences.
* Strings stay strings; the parameter set `**kwargs` becomes an
  association list of string pairs (Python formats each value with
  `f"{v}"`, so values are modelled by their string forms), and Python
  `sorted(kwargs.items())` (lexicographic on the pairs) becomes
  `List.insertionSort` by the lexicographic pair order.
* The `hashlib.md5(...).hexdigest()` digest is an uninterpreted
  parameter `digest : String → String`; everything the code does
  before hashing is modelled exactly.
* The cache directory becomes a pair of association lists, one for the
  `<key>.pkl` blob files and one for the `<key>_meta.json` metadata
  files.  A file that exists but can not be parsed (a `pickle.load` or
  `json.load` failure) is the `corrupt` constructor.  Blob payloads
  are modelled as natural numbers (the claims never inspect them).
-/

namespace PECache

/-- Lexicographic order on `(key, value)` pairs of strings: the order used
by Python `sorted` on the items of a keyword-argument dict. -/
def pairLe (p q : String × String) : Prop :=
  p.1 < q.1 ∨ (p.1 = q.1 ∧ p.2 ≤ q.2)

instance : DecidableRel pairLe := by
  intro p q
  unfold pairLe
  infer_instance

instance : IsTotal (String × String) pairLe := by
  constructor
  intro p q
  rcases lt_trichotomy p.1 q.1 with h | h | h
  · exact Or.inl (Or.inl h)
  · rcases le_total p.2 q.2 with h2 | h2
    · exact Or.inl (Or.inr ⟨h, h2⟩)
    · exact Or.inr (Or.inr ⟨h.symm, h2⟩)
  · exact Or.inr (Or.inl h)

instance : IsTrans (String × String) pairLe := by
  constructor
  intro p q r hpq hqr
  rcases hpq with h1 | ⟨e1, l1⟩
  · rcases hqr with h2 | ⟨e2, l2⟩
    · exact Or.inl (lt_trans h1 h2)
    · exact Or.inl (e2 ▸ h1)
  · rcases hqr with h2 | ⟨e2, l2⟩
    · exact Or.inl (e1 ▸ h2)
    · exact Or.inr ⟨e1.trans e2, le_trans l1 l2⟩

instance : IsAntisymm (String × String) pairLe := by
  constructor
  intro p q hpq hqp
  rcases hpq with h1 | ⟨e1, l1⟩
  · rcases hqp with h2 | ⟨e2, l2⟩
    · exact absurd h2 (lt_asymm h1)
    · exact absurd h1 (e2 ▸ lt_irrefl q.1)
  · rcases hqp with h2 | ⟨e2, l2⟩
    · exact absurd h2 (e1 ▸ lt_irrefl p.1)
    · exact Prod.ext e1 (le_antisymm l1 l2)

/-- Embedding of the canonical identity string built by `_get_cache_key`
(src/cache_manager.py lines 37-39) before it is digested:
`f"{ticker}_{data_type}"`, then, when kwargs is nonempty, an underscore and
the underscore-join of `f"{k}_{v}"` over `sorted(kwargs.items())`. -/
def cacheKeyData (ticker data_type : String) (kwargs : List (String × String)) : String :=
  let base := ticker ++ "_" ++ data_type
  if kwargs.isEmpty then base
  else
    base ++ "_" ++
      String.intercalate "_"
        ((List.insertionSort pairLe kwargs).map (fun p => p.1 ++ "_" ++ p.2))

/-- Embedding of `_get_cache_key` (src/cache_manager.py lines 35-40): the
hex digest of the canonical identity string.  `digest` abstracts
`hashlib.md5(...).hexdigest()`, a fixed deterministic function of the
string. -/
def getCacheKey (digest : String → String) (ticker data_type : String)
    (kwargs : List (String × String)) : String :=
  digest (cacheKeyData ticker data_type kwargs)

/-- Embedding of the backward walk `while current_date.weekday() >= 5:
current_date -= timedelta(days=1)` of `_get_last_trading_close`
(src/cache_manager.py lines 147-148 and 158-159): step back to the most
recent weekday.  Day `0` is a Monday, so the walk never crosses zero. -/
def backToWeekday : Nat → Nat
  | 0 => 0
  | d + 1 => if (d + 1) % 7 ≥ 5 then backToWeekday d else d + 1

/-- Embedding of `_get_last_trading_close` (src/cache_manager.py lines
141-163), in US/Eastern minutes: take the date of `now`, walk weekends
back to a weekday, put the close at minute 960 (16:00) of that day; when
`now` falls on that same weekday before 16:00, use the previous weekday
instead. -/
def lastTradingClose (now : Nat) : Nat :=
  let d := now / 1440
  let t := now % 1440
  let d1 := backToWeekday d
  if d = d1 ∧ t < 960 then
    backToWeekday (d1 - 1) * 1440 + 960
  else
    d1 * 1440 + 960

/-- Embedding of `_is_trading_day_expired` (src/cache_manager.py lines
129-139): the entry is expired when its creation instant, read in
US/Eastern time, is strictly before the most recent trading close. -/
def isTradingDayExpired (created_at now : Nat) : Bool :=
  decide (created_at < lastTradingClose now)

/-- Expiry rules stored in the `cache_expiry` table: the string marker
`'trading_day'` or a `timedelta` measured in minutes. -/
inductive ExpiryRule where
  | tradingDay : ExpiryRule
  | interval (minutes : Nat) : ExpiryRule
deriving DecidableEq, Repr

/-- Embedding of the `cache_expiry` dict built in `CacheManager.__init__`
(src/cache_manager.py lines 19-25).  `timedelta(weeks=1)` is 10080
minutes. -/
def cacheExpiry : List (String × ExpiryRule) :=
  [("stock_data", ExpiryRule.tradingDay),
   ("stock_info", ExpiryRule.tradingDay),
   ("eps_ttm", ExpiryRule.interval 10080),
   ("forward_eps", ExpiryRule.interval 10080),
   ("calculated_results", ExpiryRule.tradingDay)]

/-- The rule dispatch of `_is_cache_expired` (src/cache_manager.py lines
117-127) once the rule is fetched from the table: `'trading_day'` rules
defer to `_is_trading_day_expired`; `timedelta` rules compare
`datetime.now() - created_at` strictly against the duration. -/
def applyExpiryRule (rule : ExpiryRule) (created_at now : Nat) : Bool :=
  match rule with
  | ExpiryRule.tradingDay => isTradingDayExpired created_at now
  | ExpiryRule.interval m => decide ((now : Int) - (created_at : Int) > (m : Int))

/-- Embedding of `_is_cache_expired` (src/cache_manager.py lines 112-127):
a data type absent from the `cache_expiry` table is always expired;
otherwise its registered rule decides. -/
def isCacheExpired (data_type : String) (created_at now : Nat) : Bool :=
  match cacheExpiry.lookup data_type with
  | none => true
  | some rule => applyExpiryRule rule created_at now

/-- Embedding of the metadata record written by `save_cache` and rewritten
by `load_cache` (src/cache_manager.py lines 61-67 and 99-100).
`save_cache` writes no `is_expired` field, so it is optional: `none`
until the first successful read path reaches the rewrite. -/
structure Metadata where
  ticker : String
  data_type : String
  created_at : Nat
  last_accessed : Nat
  kwargs : List (String × String)
  is_expired : Option Bool
deriving DecidableEq, Repr

/-- A `<key>.pkl` blob file on disk: either a payload that `pickle.load`
returns, or a file whose unpickling raises (truncated or damaged). -/
inductive BlobFile where
  | ok (data : Nat) : BlobFile
  | corrupt : BlobFile
deriving DecidableEq, Repr

/-- A `<key>_meta.json` metadata file on disk: either a record that
`json.load` parses, or a file whose parse raises. -/
inductive MetaFile where
  | ok (m : Metadata) : MetaFile
  | corrupt : MetaFile
deriving DecidableEq, Repr

/-- The cache directory: the blob files and the metadata files, keyed by
cache key.  `lookup` is `os.path.exists` plus a read. -/
structure CacheStore where
  blobs : List (String × BlobFile)
  metas : List (String × MetaFile)
deriving DecidableEq, Repr

/-- Overwrite (or create) the file for `key`: the effect of opening a path
for writing and writing it completely. -/
def setFile {α : Type} (l : List (String × α)) (key : String) (v : α) :
    List (String × α) :=
  (key, v) :: l.filter (fun p => p.1 != key)

/-- Remove the file for `key` when it exists: the effect of the guarded
`os.remove` calls. -/
def eraseKey {α : Type} (l : List (String × α)) (key : String) :
    List (String × α) :=
  l.filter (fun p => p.1 != key)

/-- Embedding of `save_cache` (src/cache_manager.py lines 50-72): write
the blob, then write the metadata, and return the cache key.  The two
flags inject write failures (disk full, permission error) into the two
`open`/dump steps: a write that fails partway leaves that file truncated
and unparseable (`corrupt`), the raised exception propagates to the
caller (`Except.error`), and the steps after the failing one never run.
`now` stands for the `datetime.now()` calls. -/
def saveCache (digest : String → String) (ticker data_type : String)
    (kwargs : List (String × String)) (data : Nat) (now : Nat)
    (blobWriteOk metaWriteOk : Bool) (s : CacheStore) :
    Except Unit String × CacheStore :=
  let key := getCacheKey digest ticker data_type kwargs
  if blobWriteOk then
    let s1 : CacheStore := ⟨setFile s.blobs key (BlobFile.ok data), s.metas⟩
    if metaWriteOk then
      let m : Metadata := ⟨ticker, data_type, now, now, kwargs, none⟩
      (Except.ok key, ⟨s1.blobs, setFile s1.metas key (MetaFile.ok m)⟩)
    else
      (Except.error (), ⟨s1.blobs, setFile s1.metas key MetaFile.corrupt⟩)
  else
    (Except.error (), ⟨setFile s.blobs key BlobFile.corrupt, s.metas⟩)

/-- Embedding of `load_cache` (src/cache_manager.py lines 74-110): absent
when either file is missing or the metadata does not parse; recompute
expiry from the `data_type` argument, the stored `created_at` and the
current time; refuse expired entries unless `allow_expired`; otherwise
rewrite the metadata file with the new `last_accessed` and `is_expired`,
then unpickle the blob, returning absent if that raises. -/
def loadCache (digest : String → String) (ticker data_type : String)
    (kwargs : List (String × String)) (allow_expired : Bool) (now : Nat)
    (s : CacheStore) : Option (Nat × Metadata) × CacheStore :=
  let key := getCacheKey digest ticker data_type kwargs
  match s.blobs.lookup key, s.metas.lookup key with
  | none, _ => (none, s)
  | some _, none => (none, s)
  | some _, some MetaFile.corrupt => (none, s)
  | some blob, some (MetaFile.ok m) =>
    let is_expired := isCacheExpired data_type m.created_at now
    if is_expired && !allow_expired then (none, s)
    else
      let m2 : Metadata :=
        ⟨m.ticker, m.data_type, m.created_at, now, m.kwargs, some is_expired⟩
      let s2 : CacheStore := ⟨s.blobs, setFile s.metas key (MetaFile.ok m2)⟩
      match blob with
      | BlobFile.ok d => (some (d, m2), s2)
      | BlobFile.corrupt => (none, s2)

/-- Embedding of `force_refresh_cache` (src/cache_manager.py lines
165-180): remove whichever of the two files exists, reporting whether
anything was removed. -/
def forceRefreshCache (digest : String → String) (ticker data_type : String)
    (kwargs : List (String × String)) (s : CacheStore) : Bool × CacheStore :=
  let key := getCacheKey digest ticker data_type kwargs
  let deleted := (s.blobs.lookup key).isSome || (s.metas.lookup key).isSome
  (deleted, ⟨eraseKey s.blobs key, eraseKey s.metas key⟩)

/-- Embedding of `_remove_cache_files` (src/cache_manager.py lines
211-216): remove both files of a key when present. -/
def removeCacheFiles (key : String) (s : CacheStore) : CacheStore :=
  ⟨eraseKey s.blobs key, eraseKey s.metas key⟩

/-- One iteration of the `cleanup_old_cache` scan over a metadata file:
count it, and when its JSON does not parse remove the pair and count the
removal.  The accumulator is `((manually_removed, total_files), store)`. -/
def cleanupStep (acc : (Nat × Nat) × CacheStore) (entry : String × MetaFile) :
    (Nat × Nat) × CacheStore :=
  match entry.2 with
  | MetaFile.corrupt =>
    ((acc.1.1 + 1, acc.1.2 + 1), removeCacheFiles entry.1 acc.2)
  | MetaFile.ok _ => ((acc.1.1, acc.1.2 + 1), acc.2)

/-- Embedding of `cleanup_old_cache` (src/cache_manager.py lines 182-209):
scan the `_meta.json` files listed at entry (the `os.listdir` snapshot),
removing only the pairs whose metadata fails to parse; return the
`(manually_removed, total_files)` counters and the resulting store. -/
def cleanupOldCache (s : CacheStore) : (Nat × Nat) × CacheStore :=
  s.metas.foldl cleanupStep ((0, 0), s)

/-!  Helper lemmas about the file-map operations. -/

theorem lookup_setFile_self {α : Type} (l : List (String × α)) (k : String) (v : α) :
    (setFile l k v).lookup k = some v := by
  simp [setFile, List.lookup]

theorem lookup_eraseKey_self {α : Type} (l : List (String × α)) (k : String) :
    (eraseKey l k).lookup k = none := by
  induction l with
  | nil => rfl
  | cons e tl ih =>
    by_cases hk : e.1 = k
    · have hb : (e.1 != k) = false := by simp [bne_iff_ne, hk]
      simpa [eraseKey, List.filter_cons, hb] using ih
    · have hb : (e.1 != k) = true := by simp [bne_iff_ne, hk]
      have hb2 : (k == e.1) = false := by
        simp only [beq_eq_false_iff_ne, ne_eq]
        exact fun h2 => hk h2.symm
      simpa [eraseKey, List.filter_cons, hb, List.lookup, hb2] using ih

theorem eraseKey_of_lookup_none {α : Type} (l : List (String × α)) (k : String)
    (h : l.lookup k = none) : eraseKey l k = l := by
  induction l with
  | nil => rfl
  | cons e tl ih =>
    by_cases hk : k = e.1
    · have hb2 : (k == e.1) = true := by simp [beq_iff_eq, hk]
      simp [List.lookup, hb2] at h
    · have hb2 : (k == e.1) = false := by
        simp only [beq_eq_false_iff_ne, ne_eq]
        exact hk
      simp only [List.lookup, hb2] at h
      have hb : (e.1 != k) = true := by
        simp only [bne_iff_ne, ne_eq]
        exact fun h2 => hk h2.symm
      simp only [eraseKey, List.filter_cons, hb, if_true]
      exact congrArg (fun l2 => e :: l2) (ih h)

/-!  Claim theorems.  Instants below are US/Eastern minutes with day 0 a
Monday: day 4 is a Friday, day 7 the following Monday, minute 960 of a
day is 16:00, minute 540 is 09:00. -/

/-- Claim C1, counterexample: the claim says an entry created Friday at
17:00 US/Eastern (minute 4*1440+1020) is expired when queried the
following Monday at 09:00 (minute 7*1440+540); the code reports it as
NOT expired, because the most recent trading close at Monday 09:00 is
Friday 16:00 and the entry was created after that close. -/
theorem c1_friday_entry_not_expired_monday :
    isTradingDayExpired (4 * 1440 + 1020) (7 * 1440 + 540) = false := by decide

/-- Claim C1, amended: at Monday 09:00 the most recent trading close is
Friday 16:00 (minute 4*1440+960), and an entry is expired exactly when it
was created strictly before that close — so a Friday 17:00 entry is NOT
expired then, while anything created before Friday 16:00 is; and an
entry created Monday 10:00 is not expired when queried Monday 15:00. -/
theorem c1_trading_day_boundary :
    (∀ c : Nat, isTradingDayExpired c (7 * 1440 + 540) = true ↔ c < 4 * 1440 + 960) ∧
    isTradingDayExpired (7 * 1440 + 600) (7 * 1440 + 900) = false := by
  constructor
  · intro c
    simp only [isTradingDayExpired, decide_eq_true_eq]
    rw [show lastTradingClose (7 * 1440 + 540) = 4 * 1440 + 960 from rfl]
  · decide

/-- Claim C2, counterexample: the canonical identity string underscore
joins its fields without escaping, so the two distinct identities
(ticker A_B, data type C) and (ticker A, data type B_C), both with no
parameters, canonicalize to the same string A_B_C — and the key is a
deterministic digest of that string, so they receive the same key. -/
theorem c2_distinct_identities_same_canonical_string :
    cacheKeyData "A_B" "C" [] = cacheKeyData "A" "B_C" [] ∧
    ("A_B", "C") ≠ (("A", "B_C") : String × String) := by
  exact ⟨by decide, by decide⟩

/-- Claim C2, amended: key derivation is NOT injective across distinct
identities: whatever digest function is used, the distinct identities
(A_B, C) and (A, B_C) collide to the same cache key, because the
underscore-joined canonicalization already identifies them. -/
theorem c2_key_collision_across_identities (digest : String → String) :
    getCacheKey digest "A_B" "C" [] = getCacheKey digest "A" "B_C" [] ∧
    ("A_B", "C") ≠ (("A", "B_C") : String × String) := by
  refine ⟨congrArg digest (by decide), by decide⟩

/-- Claim C9: key derivation is invariant under parameter insertion
order — any two permutations of the same parameter list give the same
key, since the parameters are sorted before concatenation. -/
theorem c9_key_order_invariant (digest : String → String) (t d : String)
    (l1 l2 : List (String × String)) (h : l1.Perm l2) :
    getCacheKey digest t d l1 = getCacheKey digest t d l2 := by
  have hs : List.insertionSort pairLe l1 = List.insertionSort pairLe l2 :=
    List.eq_of_perm_of_sorted
      ((List.perm_insertionSort pairLe l1).trans
        (h.trans (List.perm_insertionSort pairLe l2).symm))
      (List.sorted_insertionSort pairLe l1)
      (List.sorted_insertionSort pairLe l2)
  have hl : l1.length = l2.length := h.length_eq
  have he : l1.isEmpty = l2.isEmpty := by
    cases l1 <;> cases l2 <;> simp_all
  unfold getCacheKey cacheKeyData
  rw [he, hs]

/-- Claim C9, witness: the parameter lists a=1,b=2 and b=2,a=1 give the
same key. -/
theorem c9_key_order_invariant_witness :
    getCacheKey (fun x => x) "AAPL" "stock_data" [("a", "1"), ("b", "2")] =
    getCacheKey (fun x => x) "AAPL" "stock_data" [("b", "2"), ("a", "1")] :=
  c9_key_order_invariant _ _ _ _ _ (List.Perm.swap ("b", "2") ("a", "1") [])

/-- Claim C6: a data type with no entry in the cache_expiry table is
expired for every creation instant and every current instant. -/
theorem c6_unknown_type_always_expired (dt : String) (created now : Nat)
    (h : cacheExpiry.lookup dt = none) :
    isCacheExpired dt created now = true := by
  simp [isCacheExpired, h]

/-- Claim C6, witness: market_cap has no registered policy and is always
expired. -/
theorem c6_unknown_type_always_expired_witness :
    cacheExpiry.lookup "market_cap" = none ∧
    isCacheExpired "market_cap" 0 0 = true :=
  ⟨by decide, c6_unknown_type_always_expired "market_cap" 0 0 (by decide)⟩

/-- Claim C7: for a data type registered with a fixed-duration rule, the
entry is expired exactly when now minus created_at strictly exceeds the
duration; and the fixed-duration rule with a 1-day (1440 minute)
duration leaves an entry fresh at created_at + 23h (1380 minutes) and
expired at created_at + 25h (1500 minutes). -/
theorem c7_fixed_duration_strict (dt : String) (m created now : Nat)
    (h : cacheExpiry.lookup dt = some (ExpiryRule.interval m)) :
    (isCacheExpired dt created now = true ↔ (now : Int) - (created : Int) > (m : Int)) ∧
    applyExpiryRule (ExpiryRule.interval 1440) created (created + 1380) = false ∧
    applyExpiryRule (ExpiryRule.interval 1440) created (created + 1500) = true := by
  refine ⟨?_, ?_, ?_⟩
  · simp [isCacheExpired, h, applyExpiryRule]
  · simp only [applyExpiryRule, decide_eq_false_iff_not]
    push_cast
    omega
  · simp only [applyExpiryRule, decide_eq_true_eq]
    push_cast
    omega

/-- Claim C7, witness: eps_ttm carries the one-week (10080 minute) rule
and an entry created at 0 is expired at 10081. -/
theorem c7_fixed_duration_strict_witness :
    cacheExpiry.lookup "eps_ttm" = some (ExpiryRule.interval 10080) ∧
    ((isCacheExpired "eps_ttm" 0 10081 = true ↔ (10081 : Int) - (0 : Int) > (10080 : Int)) ∧
     applyExpiryRule (ExpiryRule.interval 1440) 0 (0 + 1380) = false ∧
     applyExpiryRule (ExpiryRule.interval 1440) 0 (0 + 1500) = true) :=
  ⟨by decide, c7_fixed_duration_strict "eps_ttm" 10080 0 10081 (by decide)⟩

/-- Claim C5: on a stored entry whose recomputed expiry is true, load
with allow_expired false returns absent, and load with allow_expired
true returns the stored blob together with metadata whose is_expired
field is true and whose last_accessed is the current time.  The stored
metadata record m is arbitrary — in particular its previously persisted
is_expired flag is arbitrary — so the decision depends only on the
data type, created_at and the current time. -/
theorem c5_stale_fallback (digest : String → String) (t dt : String)
    (kw : List (String × String)) (now : Nat) (s : CacheStore) (d : Nat) (m : Metadata)
    (hb : s.blobs.lookup (getCacheKey digest t dt kw) = some (BlobFile.ok d))
    (hm : s.metas.lookup (getCacheKey digest t dt kw) = some (MetaFile.ok m))
    (he : isCacheExpired dt m.created_at now = true) :
    (loadCache digest t dt kw false now s).1 = none ∧
    (loadCache digest t dt kw true now s).1 =
      some (d, ⟨m.ticker, m.data_type, m.created_at, now, m.kwargs, some true⟩) := by
  constructor <;> simp [loadCache, hb, hm, he]

/-- Claim C5, witness: an eps_ttm entry created at 0, whose persisted
is_expired flag falsely says fresh, read at 20000 (past one week):
absent without allow_expired, served with is_expired true with it. -/
theorem c5_stale_fallback_witness :
    isCacheExpired "eps_ttm" 0 20000 = true ∧
    ((loadCache (fun x => x) "AAPL" "eps_ttm" [] false 20000
        ⟨[("AAPL_eps_ttm", BlobFile.ok 42)],
         [("AAPL_eps_ttm", MetaFile.ok ⟨"AAPL", "eps_ttm", 0, 0, [], some false⟩)]⟩).1 =
      none ∧
     (loadCache (fun x => x) "AAPL" "eps_ttm" [] true 20000
        ⟨[("AAPL_eps_ttm", BlobFile.ok 42)],
         [("AAPL_eps_ttm", MetaFile.ok ⟨"AAPL", "eps_ttm", 0, 0, [], some false⟩)]⟩).1 =
      some (42, ⟨"AAPL", "eps_ttm", 0, 20000, [], some true⟩)) :=
  ⟨by decide,
   c5_stale_fallback (fun x => x) "AAPL" "eps_ttm" [] 20000
     ⟨[("AAPL_eps_ttm", BlobFile.ok 42)],
      [("AAPL_eps_ttm", MetaFile.ok ⟨"AAPL", "eps_ttm", 0, 0, [], some false⟩)]⟩
     42 ⟨"AAPL", "eps_ttm", 0, 0, [], some false⟩ (by decide) (by decide) (by decide)⟩

/-- Claim C10: when the metadata file is valid, the entry is servable
(fresh, or expired with allow_expired true), but the blob fails to
unpickle, load returns absent AND has already rewritten the metadata
file with the new last_accessed and recomputed is_expired — an absent
result does not imply the metadata was left unchanged. -/
theorem c10_corrupt_blob (digest : String → String) (t dt : String)
    (kw : List (String × String)) (allow : Bool) (now : Nat) (s : CacheStore) (m : Metadata)
    (hb : s.blobs.lookup (getCacheKey digest t dt kw) = some BlobFile.corrupt)
    (hm : s.metas.lookup (getCacheKey digest t dt kw) = some (MetaFile.ok m))
    (hs : isCacheExpired dt m.created_at now = false ∨ allow = true) :
    (loadCache digest t dt kw allow now s).1 = none ∧
    (loadCache digest t dt kw allow now s).2.metas.lookup (getCacheKey digest t dt kw) =
      some (MetaFile.ok ⟨m.ticker, m.data_type, m.created_at, now, m.kwargs,
        some (isCacheExpired dt m.created_at now)⟩) := by
  have hcond : (isCacheExpired dt m.created_at now && !allow) = false := by
    rcases hs with h | h <;> simp [h]
  constructor <;> simp [loadCache, hb, hm, hcond, lookup_setFile_self]

/-- Claim C10, witness: a fresh eps_ttm entry with an unreadable blob,
read at minute 100 without allow_expired: the result is absent and the
metadata file now carries last_accessed 100 and is_expired false. -/
theorem c10_corrupt_blob_witness :
    isCacheExpired "eps_ttm" 0 100 = false ∧
    ((loadCache (fun x => x) "AAPL" "eps_ttm" [] false 100
        ⟨[("AAPL_eps_ttm", BlobFile.corrupt)],
         [("AAPL_eps_ttm", MetaFile.ok ⟨"AAPL", "eps_ttm", 0, 0, [], none⟩)]⟩).1 = none ∧
     (loadCache (fun x => x) "AAPL" "eps_ttm" [] false 100
        ⟨[("AAPL_eps_ttm", BlobFile.corrupt)],
         [("AAPL_eps_ttm", MetaFile.ok ⟨"AAPL", "eps_ttm", 0, 0, [], none⟩)]⟩).2.metas.lookup
       (getCacheKey (fun x => x) "AAPL" "eps_ttm" []) =
       some (MetaFile.ok ⟨"AAPL", "eps_ttm", 0, 100, [],
         some (isCacheExpired "eps_ttm" 0 100)⟩)) :=
  ⟨by decide,
   c10_corrupt_blob (fun x => x) "AAPL" "eps_ttm" [] false 100
     ⟨[("AAPL_eps_ttm", BlobFile.corrupt)],
      [("AAPL_eps_ttm", MetaFile.ok ⟨"AAPL", "eps_ttm", 0, 0, [], none⟩)]⟩
     ⟨"AAPL", "eps_ttm", 0, 0, [], none⟩ (by decide) (by decide) (Or.inl (by decide))⟩

/-- Claim C3, counterexample: saving over an existing entry when the
blob write succeeds and the metadata write then fails does signal the
failure, but the cache state for the key is NOT unchanged: the blob file
already holds the new payload 99 where the store previously held 1. -/
theorem c3_state_changed_on_failure :
    (saveCache (fun x => x) "T" "stock_data" [] 99 1000 true false
        ⟨[("T_stock_data", BlobFile.ok 1)],
         [("T_stock_data", MetaFile.ok ⟨"T", "stock_data", 0, 0, [], none⟩)]⟩).1 =
      Except.error () ∧
    (saveCache (fun x => x) "T" "stock_data" [] 99 1000 true false
        ⟨[("T_stock_data", BlobFile.ok 1)],
         [("T_stock_data", MetaFile.ok ⟨"T", "stock_data", 0, 0, [], none⟩)]⟩).2.blobs.lookup
      "T_stock_data" = some (BlobFile.ok 99) ∧
    ((⟨[("T_stock_data", BlobFile.ok 1)],
       [("T_stock_data", MetaFile.ok ⟨"T", "stock_data", 0, 0, [], none⟩)]⟩ :
        CacheStore)).blobs.lookup "T_stock_data" = some (BlobFile.ok 1) := by
  exact ⟨rfl, by decide, by decide⟩

/-- Claim C3, amended: save_cache signals a write failure to the caller
(the exception propagates), but it is not atomic: when the blob write
succeeds and the metadata write then fails, the new blob is already in
place and the metadata file is left truncated — a half-updated
blob/metadata pair remains for that key. -/
theorem c3_meta_write_failure (digest : String → String) (t dt : String)
    (kw : List (String × String)) (data now : Nat) (s : CacheStore) :
    (saveCache digest t dt kw data now true false s).1 = Except.error () ∧
    (saveCache digest t dt kw data now true false s).2.blobs.lookup
      (getCacheKey digest t dt kw) = some (BlobFile.ok data) ∧
    (saveCache digest t dt kw data now true false s).2.metas.lookup
      (getCacheKey digest t dt kw) = some MetaFile.corrupt := by
  refine ⟨rfl, ?_, ?_⟩ <;> simp [saveCache, lookup_setFile_self]

/-- Claim C8: on a key with an existing entry, delete returns true and
removes both files, a second delete returns false; on an absent key
delete returns false and leaves the store unchanged (and, the model
being total, raises nothing). -/
theorem c8_delete_idempotent (digest : String → String) (t dt : String)
    (kw : List (String × String)) (s : CacheStore) :
    (((s.blobs.lookup (getCacheKey digest t dt kw)).isSome = true ∨
      (s.metas.lookup (getCacheKey digest t dt kw)).isSome = true) →
      (forceRefreshCache digest t dt kw s).1 = true ∧
      (forceRefreshCache digest t dt kw (forceRefreshCache digest t dt kw s).2).1 = false ∧
      (forceRefreshCache digest t dt kw s).2.blobs.lookup (getCacheKey digest t dt kw) = none ∧
      (forceRefreshCache digest t dt kw s).2.metas.lookup (getCacheKey digest t dt kw) = none) ∧
    ((s.blobs.lookup (getCacheKey digest t dt kw) = none ∧
      s.metas.lookup (getCacheKey digest t dt kw) = none) →
      (forceRefreshCache digest t dt kw s).1 = false ∧
      (forceRefreshCache digest t dt kw s).2 = s) := by
  constructor
  · intro h
    refine ⟨?_, ?_, lookup_eraseKey_self _ _, lookup_eraseKey_self _ _⟩
    · rcases h with h | h <;> simp [forceRefreshCache, h]
    · simp [forceRefreshCache, lookup_eraseKey_self]
  · rintro ⟨h1, h2⟩
    refine ⟨by simp [forceRefreshCache, h1, h2], ?_⟩
    show (⟨eraseKey s.blobs _, eraseKey s.metas _⟩ : CacheStore) = s
    rw [eraseKey_of_lookup_none _ _ h1, eraseKey_of_lookup_none _ _ h2]

/-- Claim C8, witness: deleting an existing entry returns true then
false and leaves no files; deleting from an empty store returns false
and changes nothing. -/
theorem c8_delete_idempotent_witness :
    ((forceRefreshCache (fun x => x) "T" "stock_data" []
        ⟨[("T_stock_data", BlobFile.ok 1)],
         [("T_stock_data", MetaFile.ok ⟨"T", "stock_data", 0, 0, [], none⟩)]⟩).1 = true ∧
     (forceRefreshCache (fun x => x) "T" "stock_data" []
        (forceRefreshCache (fun x => x) "T" "stock_data" []
          ⟨[("T_stock_data", BlobFile.ok 1)],
           [("T_stock_data", MetaFile.ok ⟨"T", "stock_data", 0, 0, [], none⟩)]⟩).2).1 = false ∧
     (forceRefreshCache (fun x => x) "T" "stock_data" []
        ⟨[("T_stock_data", BlobFile.ok 1)],
         [("T_stock_data", MetaFile.ok ⟨"T", "stock_data", 0, 0, [], none⟩)]⟩).2.blobs.lookup
       (getCacheKey (fun x => x) "T" "stock_data" []) = none ∧
     (forceRefreshCache (fun x => x) "T" "stock_data" []
        ⟨[("T_stock_data", BlobFile.ok 1)],
         [("T_stock_data", MetaFile.ok ⟨"T", "stock_data", 0, 0, [], none⟩)]⟩).2.metas.lookup
       (getCacheKey (fun x => x) "T" "stock_data" []) = none) ∧
    ((forceRefreshCache (fun x => x) "T" "stock_data" [] ⟨[], []⟩).1 = false ∧
     (forceRefreshCache (fun x => x) "T" "stock_data" [] ⟨[], []⟩).2 = ⟨[], []⟩) :=
  ⟨(c8_delete_idempotent _ _ _ _ _).1 (Or.inl (by decide)),
   (c8_delete_idempotent _ _ _ _ _).2 ⟨rfl, rfl⟩⟩

/-- Helper for claim C4: a cleanup scan over metadata files none of
which is corrupt leaves the store untouched, whatever the starting
counters. -/
theorem cleanup_foldl_no_corrupt (l : List (String × MetaFile)) (acc : Nat × Nat)
    (st : CacheStore) (h : ∀ e ∈ l, e.2 ≠ MetaFile.corrupt) :
    (l.foldl cleanupStep (acc, st)).2 = st := by
  induction l generalizing acc with
  | nil => rfl
  | cons e tl ih =>
    rcases e with ⟨k2, mf⟩
    cases mf with
    | corrupt => exact absurd rfl (h ⟨k2, MetaFile.corrupt⟩ (List.mem_cons_self _ _))
    | ok m =>
      show (tl.foldl cleanupStep (cleanupStep (acc, st) (k2, MetaFile.ok m))).2 = st
      simp only [cleanupStep]
      exact ih _ (fun e2 he2 => h e2 (List.mem_cons_of_mem _ he2))

/-- Claim C4, counterexample: a store holding a blob file with no
metadata file — an entry with only one of its two halves — is left
completely unchanged by the sweep, contradicting the claim that the
sweep removes any entry that has only one of its two files. -/
theorem c4_orphan_blob_survives_sweep :
    (cleanupOldCache ⟨[("k", BlobFile.ok 5)], []⟩).2 =
      (⟨[("k", BlobFile.ok 5)], []⟩ : CacheStore) ∧
    (⟨[("k", BlobFile.ok 5)], []⟩ : CacheStore).blobs.lookup "k" = some (BlobFile.ok 5) ∧
    (⟨[("k", BlobFile.ok 5)], []⟩ : CacheStore).metas.lookup "k" = none := by
  exact ⟨rfl, by decide, rfl⟩

/-- Claim C4, amended: the sweep removes a pair only when its metadata
file exists and fails to parse; when every metadata file parses, the
sweep leaves the store exactly as it was — in particular entries missing
one of their two files (an orphan blob, or metadata without a blob) are
not purged. -/
theorem c4_sweep_no_corrupt_unchanged (s : CacheStore)
    (h : ∀ e ∈ s.metas, e.2 ≠ MetaFile.corrupt) :
    (cleanupOldCache s).2 = s :=
  cleanup_foldl_no_corrupt s.metas (0, 0) s h

/-- Claim C4, witness: a store holding a parseable metadata file with no
blob file survives the sweep unchanged. -/
theorem c4_sweep_no_corrupt_unchanged_witness :
    (∀ e ∈ ([("k2", MetaFile.ok ⟨"T", "stock_data", 0, 0, [], none⟩)] :
        List (String × MetaFile)), e.2 ≠ MetaFile.corrupt) ∧
    (cleanupOldCache ⟨[], [("k2", MetaFile.ok ⟨"T", "stock_data", 0, 0, [], none⟩)]⟩).2 =
      ⟨[], [("k2", MetaFile.ok ⟨"T", "stock_data", 0, 0, [], none⟩)]⟩ :=
  ⟨by decide, c4_sweep_no_corrupt_unchanged _ (by decide)⟩

end PECache
